import Mathlib

/-!
Shallow embedding of the `TransactionBatch` UTXO-selection core of the engine
(`src/transaction/transaction-batch.ts`) together with the parts of the
solutions engine it calls.  Amount arithmetic in the source uses JavaScript
`bigint` on unsigned note values, embedded here as `Nat`.

Definitions are translated from the source file; the handful of helpers that
the source imports from modules not present in this repository snapshot
(`findExactSolutionsOverTargetValue`, `isValidFor3Outputs`,
`calculateTotalSpend`, `getTokenDataHash` and the complex-solutions helpers)
are modelled from the specification and carry a doc comment saying so.
-/

/-- Token standard tag of a token (`TokenType` in `models/formatted-types`). -/
inductive TokenType where
  | ERC20
  | ERC721
  | ERC1155
deriving DecidableEq

/-- Token data record: standard tag, 20-byte address and sub-id
(`TokenData` in `models/formatted-types`), with byte strings embedded as
`String`. -/
structure TokenData where
  tokenType : TokenType
  tokenAddress : String
  tokenSubID : String
deriving DecidableEq

/-- Modelled from the spec: the token-hash is the Poseidon hash of
`(tag, address, subId)` and keys all per-token storage.  The hash function
itself is outside this repository snapshot, so the token data triple stands
in for its hash (an injective stand-in, matching the keying role the spec
assigns to the hash). -/
abbrev TokenHash := TokenData

/-- Modelled from the spec: `getTokenDataHash` (in `note/note-util`, not part
of this snapshot) maps token data to its token-hash; modelled as the identity
on the `TokenData` stand-in. -/
def getTokenDataHash (t : TokenData) : TokenHash := t

/-- A transact note as seen by the batch: its token-hash and unsigned value
(the other fields of `TransactNote` play no role in solution generation). -/
structure TransactNote where
  tokenHash : TokenHash
  value : Nat
deriving DecidableEq

/-- Unshield request data (`UnshieldData` in `models/txo-types`). -/
structure UnshieldData where
  toAddress : String
  value : Nat
  tokenData : TokenData
deriving DecidableEq

/-- Adapt binding (`AdaptID` in `models/formatted-types`). -/
structure AdaptID where
  contract : String
  parameters : String
deriving DecidableEq

/-- Chain identifier pair (`Chain` in `models/engine-types`). -/
structure Chain where
  chainType : Nat
  chainId : Nat
deriving DecidableEq

/-- A wallet UTXO as the solver sees it: an identifier (used by
`excludedUTXOIDs`) and its note value. -/
structure TXO where
  id : String
  value : Nat
deriving DecidableEq

/-- Per-tree balance entry (`TreeBalance` in `models`): aggregate balance and
the UTXOs of one tree. -/
structure TreeBalance where
  balance : Nat
  utxos : List TXO
deriving DecidableEq

/-- A spending solution group (`SpendingSolutionGroup` in `models/txo-types`). -/
structure SpendingSolutionGroup where
  utxos : List TXO
  spendingTree : Nat
  unshieldValue : Nat
  tokenOutputs : List TransactNote
  tokenData : TokenData
deriving DecidableEq

/-- The mutable state of a `TransactionBatch` object; the unshield-data map
(a JavaScript object keyed by token-hash) is embedded as an association
list. -/
structure TransactionBatch where
  adaptID : AdaptID
  chain : Chain
  outputs : List TransactNote
  unshieldDataMap : List (TokenHash × UnshieldData)
  overallBatchMinGasPrice : Nat
deriving DecidableEq

/-- Association-list lookup, the embedding of JavaScript object indexing by
token-hash. -/
def assocLookup {α : Type} : List (TokenHash × α) → TokenHash → Option α
  | [], _ => none
  | (k, v) :: rest, h => if k = h then some v else assocLookup rest h

/-- `unshieldTotal(tokenHash)`: the value recorded for the token-hash, or 0. -/
def unshieldTotal (b : TransactionBatch) (tokenHash : TokenHash) : Nat :=
  match assocLookup b.unshieldDataMap tokenHash with
  | some d => d.value
  | none => 0

/-- `addOutput(output)`: push the note onto the outputs list. -/
def addOutput (b : TransactionBatch) (output : TransactNote) : TransactionBatch :=
  { b with outputs := b.outputs ++ [output] }

/-- `resetOutputs()`: clear the outputs list. -/
def resetOutputs (b : TransactionBatch) : TransactionBatch :=
  { b with outputs := [] }

/-- `resetUnshieldData()`: clear the unshield-data map. -/
def resetUnshieldData (b : TransactionBatch) : TransactionBatch :=
  { b with unshieldDataMap := [] }

/-- `setAdaptID(adaptID)`: replace the adapt binding. -/
def setAdaptID (b : TransactionBatch) (a : AdaptID) : TransactionBatch :=
  { b with adaptID := a }

/-- `addUnshieldData(unshieldData)`: reject a duplicate token-hash, then a
zero value, and otherwise record the data under the token-hash.  A thrown
error is embedded as `some message` in the second component, leaving the
state component exactly as the source leaves `this` (the map assignment is
the last statement of the method). -/
def addUnshieldData (b : TransactionBatch) (d : UnshieldData) :
    TransactionBatch × Option String :=
  let tokenHash := getTokenDataHash d.tokenData
  if (assocLookup b.unshieldDataMap tokenHash).isSome then
    (b, some "You may only call .addUnshieldData once per token for a given TransactionBatch.")
  else if d.value = 0 then
    (b, some "Unshield value must be greater than 0.")
  else
    ({ b with unshieldDataMap := (tokenHash, d) :: b.unshieldDataMap }, none)

/-- Modelled from the spec: `calculateTotalSpend` (in `solutions/utxos`, not
part of this snapshot) sums the note values of the chosen UTXOs. -/
def calculateTotalSpend (utxos : List TXO) : Nat :=
  utxos.foldl (fun left right => left + right.value) 0

/-- Modelled from the spec: the circuit allows input arities 1, 2 or 8. -/
def isValidNullifierCount (utxoCount : Nat) : Bool :=
  utxoCount = 1 ∨ utxoCount = 2 ∨ utxoCount = 8

/-- Modelled from the spec: `isValidFor3Outputs` (in `solutions/nullifiers`,
not part of this snapshot) requires an allowed input arity and, per the
boundary case of the spec (1 input with 2 outputs plus an unshield triggers
the 3-output rule), additionally forbids a single input. -/
def isValidFor3Outputs (utxoCount : Nat) : Bool :=
  isValidNullifierCount utxoCount && utxoCount ≠ 1

/-- Greedy accumulation: take UTXOs from the front of the list until the
running total reaches the target. -/
def greedyAccum : List TXO → Nat → Nat → List TXO
  | [], _, _ => []
  | u :: rest, acc, target =>
    if target ≤ acc then [] else u :: greedyAccum rest (acc + u.value) target

/-- Modelled from the spec: `findExactSolutionsOverTargetValue` (in
`solutions/simple-solutions`, not part of this snapshot) — a greedy search
within one tree for a subset whose sum meets the target while respecting the
allowed input arities; `none` when the tree balance is below the target or
the accumulated count is not an allowed arity. -/
def findExactSolutionsOverTargetValue (treeBalance : TreeBalance)
    (totalRequired : Nat) : Option (List TXO) :=
  if treeBalance.balance < totalRequired then none
  else
    let utxos := greedyAccum treeBalance.utxos 0 totalRequired
    if isValidNullifierCount utxos.length then some utxos else none

/-- The `treeSortedBalances.forEach` loop of `createSimpleSatisfyingUTXOGroup`:
each tree with a solution overwrites the `(utxos, spendingTree)` accumulator,
so the final accumulator holds the last tree with a solution. -/
def findLastTreeSolution (amountRequired : Nat) :
    List TreeBalance → Nat → Option (List TXO × Nat) → Option (List TXO × Nat)
  | [], _, acc => acc
  | tb :: rest, tree, acc =>
    findLastTreeSolution amountRequired rest (tree + 1)
      (match findExactSolutionsOverTargetValue tb amountRequired with
       | none => acc
       | some solutions => some (solutions, tree))

/-- `createSimpleSatisfyingUTXOGroup(treeSortedBalances, amountRequired)`:
run the per-tree loop, throw when no tree produced a solution, and otherwise
return the chosen UTXOs, their tree and their total spend. -/
def createSimpleSatisfyingUTXOGroup (treeSortedBalances : List TreeBalance)
    (amountRequired : Nat) : Except String (List TXO × Nat × Nat) :=
  match findLastTreeSolution amountRequired treeSortedBalances 0 none with
  | none => .error "No spending solutions found. Must use complex UTXO aggregator."
  | some (utxos, spendingTree) =>
    .ok (utxos, spendingTree, calculateTotalSpend utxos)

/-- The body of the `try` block of `createSimpleSpendingSolutionGroupsIfPossible`,
with each `throw` embedded as `Except.error`. -/
def createSimpleBody (b : TransactionBatch) (tokenData : TokenData)
    (tokenHash : TokenHash) (tokenOutputs : List TransactNote)
    (treeSortedBalances : List TreeBalance) (totalRequired : Nat) :
    Except String SpendingSolutionGroup :=
  match createSimpleSatisfyingUTXOGroup treeSortedBalances totalRequired with
  | .error e => .error e
  | .ok (utxos, spendingTree, amount) =>
    if amount < totalRequired then
      .error "Could not find UTXOs to satisfy required amount."
    else if !isValidFor3Outputs utxos.length
        && decide (0 < b.outputs.length)
        && decide (0 < unshieldTotal b tokenHash) then
      .error "Requires 3 outputs, given a unshield and at least one standard output."
    else
      .ok { utxos := utxos, spendingTree := spendingTree,
            unshieldValue := unshieldTotal b tokenHash,
            tokenOutputs := tokenOutputs, tokenData := tokenData }

/-- `createSimpleSpendingSolutionGroupsIfPossible`: the `try`/`catch` wrapper —
any error thrown inside the body yields `undefined` (`none`). -/
def createSimpleSpendingSolutionGroupsIfPossible (b : TransactionBatch)
    (tokenData : TokenData) (tokenHash : TokenHash)
    (tokenOutputs : List TransactNote) (treeSortedBalances : List TreeBalance)
    (totalRequired : Nat) : Option SpendingSolutionGroup :=
  match createSimpleBody b tokenData tokenHash tokenOutputs treeSortedBalances
      totalRequired with
  | .ok g => some g
  | .error _ => none

/-- Greedy accumulation over the UTXOs of one tree that are not excluded. -/
def greedyTakeExcluding (utxos : List TXO) (excluded : List String)
    (target : Nat) : List TXO :=
  greedyAccum (utxos.filter (fun u => !(excluded.contains u.id))) 0 target

/-- Modelled from the spec: slicing an amount across several groups, each
drawing from one tree, tracking excluded UTXO ids to prevent double-use.
`mk picked tree covered` builds the group for one tree; `none` when the trees
cannot cover the amount. -/
def sliceAcrossTrees (mk : List TXO → Nat → Nat → SpendingSolutionGroup) :
    List TreeBalance → Nat → Nat → List String →
    Option (List SpendingSolutionGroup × List String)
  | _, _, 0, excluded => some ([], excluded)
  | [], _, _ + 1, _ => none
  | tb :: rest, tree, amountLeft, excluded =>
    let picked := greedyTakeExcluding tb.utxos excluded amountLeft
    if picked.isEmpty then sliceAcrossTrees mk rest (tree + 1) amountLeft excluded
    else
      let spend := calculateTotalSpend picked
      let covered := min spend amountLeft
      match sliceAcrossTrees mk rest (tree + 1) (amountLeft - covered)
          (excluded ++ picked.map (fun u => u.id)) with
      | none => none
      | some (groups, excludedAfter) =>
        some (mk picked tree covered :: groups, excludedAfter)

/-- Modelled from the spec: `createSpendingSolutionGroupsForOutput` (in
`solutions/complex-solutions`, not part of this snapshot) slices one output
across multiple groups, each drawing from one tree, tracking excluded UTXO
ids; on success the output is fully satisfied (and the caller removes it from
the remaining outputs), on failure (`none`) nothing is consumed. -/
def createSpendingSolutionGroupsForOutput (tokenData : TokenData)
    (treeSortedBalances : List TreeBalance) (tokenOutput : TransactNote)
    (excludedUTXOIDs : List String) :
    Option (List SpendingSolutionGroup × List String) :=
  sliceAcrossTrees
    (fun picked tree covered =>
      { utxos := picked, spendingTree := tree, unshieldValue := 0,
        tokenOutputs := [{ tokenHash := tokenOutput.tokenHash, value := covered }],
        tokenData := tokenData })
    treeSortedBalances 0 tokenOutput.value excludedUTXOIDs

/-- Modelled from the spec: `createSpendingSolutionGroupsForUnshield` (in
`solutions/complex-solutions`, not part of this snapshot) handles the
unshield remainder identically to an output; an empty list signals failure. -/
def createSpendingSolutionGroupsForUnshield (tokenData : TokenData)
    (treeSortedBalances : List TreeBalance) (unshieldValue : Nat)
    (excludedUTXOIDs : List String) : List SpendingSolutionGroup :=
  match sliceAcrossTrees
      (fun picked tree covered =>
        { utxos := picked, spendingTree := tree, unshieldValue := covered,
          tokenOutputs := [], tokenData := tokenData })
      treeSortedBalances 0 unshieldValue excludedUTXOIDs with
  | none => []
  | some (groups, _) => groups

/-- Modelled from the spec: the message of `consolidateBalanceError` (in
`solutions/complex-solutions`, not part of this snapshot). -/
def consolidateBalanceErrorMsg : String :=
  "Please consolidate RAILGUN balances to continue."

/-- The `while (remainingTokenOutputs.length > 0)` loop of
`createComplexSatisfyingSpendingSolutionGroups`: satisfy the head output,
breaking when no groups come back; returns the accumulated groups, the
outputs still remaining, and the excluded UTXO ids. -/
def complexLoop (tokenData : TokenData) (treeSortedBalances : List TreeBalance) :
    List TransactNote → List String → List SpendingSolutionGroup →
    List SpendingSolutionGroup × List TransactNote × List String
  | [], excluded, acc => (acc, [], excluded)
  | out :: rest, excluded, acc =>
    match createSpendingSolutionGroupsForOutput tokenData treeSortedBalances
        out excluded with
    | none => (acc, out :: rest, excluded)
    | some (groups, excludedAfter) =>
      if groups.isEmpty then (acc, out :: rest, excluded)
      else complexLoop tokenData treeSortedBalances rest excludedAfter (acc ++ groups)

/-- `createComplexSatisfyingSpendingSolutionGroups`: run the per-output loop;
if outputs remain, throw the consolidate-balance error; then, when an
unshield is recorded for the token, satisfy it from the remaining UTXOs,
throwing the consolidate-balance error when that yields no groups. -/
def createComplexSatisfyingSpendingSolutionGroups (b : TransactionBatch)
    (tokenData : TokenData) (tokenOutputs : List TransactNote)
    (treeSortedBalances : List TreeBalance) :
    Except String (List SpendingSolutionGroup) :=
  match complexLoop tokenData treeSortedBalances tokenOutputs [] [] with
  | (groups, remaining, excluded) =>
    if !remaining.isEmpty then .error consolidateBalanceErrorMsg
    else
      let tokenHash := getTokenDataHash tokenData
      if (assocLookup b.unshieldDataMap tokenHash).isSome then
        let unshieldGroups := createSpendingSolutionGroupsForUnshield tokenData
          treeSortedBalances (unshieldTotal b tokenHash) excluded
        if unshieldGroups.isEmpty then .error consolidateBalanceErrorMsg
        else .ok (groups ++ unshieldGroups)
      else .ok groups

/-- The balance-not-found error of `generateValidSpendingSolutionGroups`,
chosen by token type. -/
def balanceNotFoundError (tokenData : TokenData) : String :=
  match tokenData.tokenType with
  | .ERC20 =>
    "Can not find RAILGUN wallet balance for ERC20 token: " ++ tokenData.tokenAddress
  | .ERC721 | .ERC1155 =>
    "Can not find RAILGUN wallet balance for NFT with token ID: " ++ tokenData.tokenSubID

/-- The balance-too-low error of `generateValidSpendingSolutionGroups`,
chosen by token type. -/
def balanceTooLowError (tokenData : TokenData) : String :=
  match tokenData.tokenType with
  | .ERC20 =>
    "RAILGUN private token balance for " ++ tokenData.tokenAddress ++ " too low."
  | .ERC721 | .ERC1155 =>
    "RAILGUN private NFT balance too low."

/-- `generateValidSpendingSolutionGroups(wallet, tokenData)`: filter this
token's outputs, compute the total required, look up the wallet's per-tree
balances for the token (passed here as the `balances` map), fail when they
are missing or their sum is below the total required, try the simple path,
and otherwise fall back to the complex path. -/
def generateValidSpendingSolutionGroups (b : TransactionBatch)
    (balances : List (TokenHash × List TreeBalance)) (tokenData : TokenData) :
    Except String (List SpendingSolutionGroup) :=
  let tokenHash := getTokenDataHash tokenData
  let tokenOutputs := b.outputs.filter (fun o => decide (o.tokenHash = tokenHash))
  let outputTotal := tokenOutputs.foldl (fun left right => left + right.value) 0
  let totalRequired := outputTotal + unshieldTotal b tokenHash
  match assocLookup balances tokenHash with
  | none => .error (balanceNotFoundError tokenData)
  | some treeSortedBalances =>
    let tokenBalance := treeSortedBalances.foldl
      (fun left right => left + right.balance) 0
    if tokenBalance < totalRequired then .error (balanceTooLowError tokenData)
    else
      match createSimpleSpendingSolutionGroupsIfPossible b tokenData tokenHash
          tokenOutputs treeSortedBalances totalRequired with
      | some g => .ok [g]
      | none =>
        createComplexSatisfyingSpendingSolutionGroups b tokenData tokenOutputs
          treeSortedBalances

example : greedyAccum [⟨"a", 10⟩] 0 5 = [⟨"a", 10⟩] := by decide

example :
    createSimpleSatisfyingUTXOGroup [⟨10, [⟨"a", 10⟩]⟩, ⟨10, [⟨"b", 10⟩]⟩] 5
      = .ok ([⟨"b", 10⟩], 1, 10) := rfl

/-- Concrete token used by witnesses and counterexamples. -/
def erc20Token : TokenData := ⟨.ERC20, "t", "0"⟩

/-- Seven unit-valued UTXOs: any greedy selection meeting a target of 5 has
an arity outside the allowed set, so the simple path fails on this tree. -/
def sevenOnes : List TXO :=
  [⟨"a", 1⟩, ⟨"b", 1⟩, ⟨"c", 1⟩, ⟨"d", 1⟩, ⟨"e", 1⟩, ⟨"f", 1⟩, ⟨"g", 1⟩]

theorem greedyAccum_subset (l : List TXO) :
    ∀ (acc target : Nat) (u : TXO), u ∈ greedyAccum l acc target → u ∈ l := by
  induction l with
  | nil => intro acc target u h; simp [greedyAccum] at h
  | cons x rest ih =>
    intro acc target u h
    rw [greedyAccum] at h
    by_cases hc : target ≤ acc
    · simp [hc] at h
    · rw [if_neg hc] at h
      rcases List.mem_cons.mp h with h | h
      · exact h ▸ List.mem_cons_self x rest
      · exact List.mem_cons_of_mem x (ih _ _ u h)

theorem findExactSolutions_subset (tb : TreeBalance) (req : Nat) (s : List TXO)
    (h : findExactSolutionsOverTargetValue tb req = some s) :
    ∀ u ∈ s, u ∈ tb.utxos := by
  intro u hu
  rw [findExactSolutionsOverTargetValue] at h
  by_cases h1 : tb.balance < req
  · rw [if_pos h1] at h; exact absurd h (by simp)
  · rw [if_neg h1] at h
    by_cases h2 : isValidNullifierCount (greedyAccum tb.utxos 0 req).length = true
    · simp only [h2, if_true] at h
      injection h with h
      exact greedyAccum_subset _ _ _ u (h ▸ hu)
    · simp only [h2] at h
      exact absurd h (by simp)

theorem findLastTreeSolution_sound (req : Nat) (l : List TreeBalance) :
    ∀ (i : Nat) (acc : Option (List TXO × Nat)) (s : List TXO) (t : Nat),
      findLastTreeSolution req l i acc = some (s, t) →
      acc = some (s, t) ∨
        ∃ tb : TreeBalance, i ≤ t ∧ l.get? (t - i) = some tb ∧
          findExactSolutionsOverTargetValue tb req = some s := by
  induction l with
  | nil => intro i acc s t h; exact Or.inl h
  | cons tb rest ih =>
    intro i acc s t h
    rw [findLastTreeSolution] at h
    rcases ih (i + 1) _ s t h with h' | ⟨tb', hle, hget, hfe⟩
    · cases hfe : findExactSolutionsOverTargetValue tb req with
      | none => rw [hfe] at h'; exact Or.inl h'
      | some sol =>
        rw [hfe] at h'
        injection h' with h'
        obtain ⟨h1, h2⟩ := Prod.mk.injEq .. ▸ h'
        subst h1; subst h2
        refine Or.inr ⟨tb, Nat.le_refl _, ?_, hfe⟩
        simp
    · refine Or.inr ⟨tb', Nat.le_trans (Nat.le_succ i) hle, ?_, hfe⟩
      have hsub : t - i = (t - (i + 1)) + 1 := by omega
      rw [hsub]
      simpa using hget

theorem createSimpleSatisfyingUTXOGroup_sound (tsb : List TreeBalance)
    (req : Nat) (utxos : List TXO) (tree amt : Nat)
    (h : createSimpleSatisfyingUTXOGroup tsb req = .ok (utxos, tree, amt)) :
    amt = calculateTotalSpend utxos ∧
      ∃ tb : TreeBalance, tsb.get? tree = some tb ∧
        findExactSolutionsOverTargetValue tb req = some utxos := by
  rw [createSimpleSatisfyingUTXOGroup] at h
  cases hfl : findLastTreeSolution req tsb 0 none with
  | none => rw [hfl] at h; exact absurd h (by simp)
  | some p =>
    obtain ⟨s, t⟩ := p
    rw [hfl] at h
    injection h with h
    obtain ⟨h1, h2, h3⟩ := by simpa using h
    subst h1; subst h2
    rcases findLastTreeSolution_sound req tsb 0 none s t hfl with h' | ⟨tb, _, hget, hfe⟩
    · exact absurd h' (by simp)
    · exact ⟨h3.symm, tb, by simpa using hget, hfe⟩

/-- Claim C1 (counter-evidence): the spec says the simple-path selection
returns the FIRST (lowest-numbered) tree that yields a valid solution set,
and the loop's own comment says the same, but the `forEach` accumulator is
overwritten by every tree with a solution: with two trees each holding one
UTXO of value 10 and a required amount of 5, tree 0 yields a valid solution
set, yet the function returns tree 1. -/
theorem c1_last_tree_returned_not_first :
    createSimpleSatisfyingUTXOGroup [⟨10, [⟨"a", 10⟩]⟩, ⟨10, [⟨"b", 10⟩]⟩] 5
        = .ok ([⟨"b", 10⟩], 1, 10)
      ∧ findExactSolutionsOverTargetValue ⟨10, [⟨"a", 10⟩]⟩ 5 = some [⟨"a", 10⟩] :=
  ⟨rfl, rfl⟩

/-- Claim C6: `addUnshieldData` raises an error exactly when an unshield was
already recorded for the same token-hash or the value is zero; otherwise it
records the data under the token-hash. -/
theorem c6_addUnshieldData_error_iff (b : TransactionBatch) (d : UnshieldData) :
    (((addUnshieldData b d).2).isSome = true
        ↔ ((assocLookup b.unshieldDataMap (getTokenDataHash d.tokenData)).isSome = true
            ∨ d.value = 0))
    ∧ ((addUnshieldData b d).2 = none →
        assocLookup (addUnshieldData b d).1.unshieldDataMap
            (getTokenDataHash d.tokenData) = some d) := by
  by_cases h1 :
      (assocLookup b.unshieldDataMap (getTokenDataHash d.tokenData)).isSome = true
  · constructor
    · simp [addUnshieldData, h1]
    · intro h
      simp [addUnshieldData, h1] at h
  · by_cases h2 : d.value = 0
    · constructor
      · simp [addUnshieldData, h1, h2]
      · intro h
        simp [addUnshieldData, h1, h2] at h
    · constructor
      · simp [addUnshieldData, h1, h2]
      · intro _
        simp [addUnshieldData, h1, h2, assocLookup]

/-- Claim C6 witness: recording a fresh nonzero unshield succeeds and the
data is found under its token-hash afterwards. -/
theorem c6_addUnshieldData_error_iff_witness :
    assocLookup (addUnshieldData ⟨⟨"", ""⟩, ⟨0, 0⟩, [], [], 0⟩
        ⟨"r", 5, erc20Token⟩).1.unshieldDataMap
      (getTokenDataHash erc20Token) = some ⟨"r", 5, erc20Token⟩ :=
  (c6_addUnshieldData_error_iff ⟨⟨"", ""⟩, ⟨0, 0⟩, [], [], 0⟩
    ⟨"r", 5, erc20Token⟩).2 rfl

/-- Claim C8: `resetOutputs` clears only the outputs list and
`resetUnshieldData` clears only the unshield-data map; the adapt binding, the
chain and the overall batch minimum gas price are unchanged by both. -/
theorem c8_reset_frame (b : TransactionBatch) :
    (resetOutputs b).outputs = []
    ∧ (resetOutputs b).unshieldDataMap = b.unshieldDataMap
    ∧ (resetOutputs b).adaptID = b.adaptID
    ∧ (resetOutputs b).chain = b.chain
    ∧ (resetOutputs b).overallBatchMinGasPrice = b.overallBatchMinGasPrice
    ∧ (resetUnshieldData b).unshieldDataMap = []
    ∧ (resetUnshieldData b).outputs = b.outputs
    ∧ (resetUnshieldData b).adaptID = b.adaptID
    ∧ (resetUnshieldData b).chain = b.chain
    ∧ (resetUnshieldData b).overallBatchMinGasPrice = b.overallBatchMinGasPrice :=
  ⟨rfl, rfl, rfl, rfl, rfl, rfl, rfl, rfl, rfl, rfl⟩

/-- Claim C9: when `addUnshieldData` rejects its input (duplicate token-hash
or zero value), the entire batch state is exactly as it was before the call. -/
theorem c9_addUnshieldData_atomic (b : TransactionBatch) (d : UnshieldData)
    (h : (assocLookup b.unshieldDataMap (getTokenDataHash d.tokenData)).isSome = true
          ∨ d.value = 0) :
    (addUnshieldData b d).1 = b ∧ ((addUnshieldData b d).2).isSome = true := by
  by_cases h1 :
      (assocLookup b.unshieldDataMap (getTokenDataHash d.tokenData)).isSome = true
  · simp [addUnshieldData, h1]
  · rcases h with h | h
    · exact absurd h h1
    · simp [addUnshieldData, h1, h]

/-- Claim C9 witness: a zero-valued unshield is rejected and leaves the batch
unchanged. -/
theorem c9_addUnshieldData_atomic_witness :
    (addUnshieldData ⟨⟨"", ""⟩, ⟨0, 0⟩, [], [], 0⟩ ⟨"r", 0, erc20Token⟩).1
        = ⟨⟨"", ""⟩, ⟨0, 0⟩, [], [], 0⟩
      ∧ ((addUnshieldData ⟨⟨"", ""⟩, ⟨0, 0⟩, [], [], 0⟩
          ⟨"r", 0, erc20Token⟩).2).isSome = true :=
  c9_addUnshieldData_atomic ⟨⟨"", ""⟩, ⟨0, 0⟩, [], [], 0⟩ ⟨"r", 0, erc20Token⟩
    (Or.inr rfl)

/-- Claim C2: every group returned by the simple path covers the sum of its
token outputs plus its unshield value with the sum of its UTXO values, and
all of its UTXOs belong to the tree recorded as `spendingTree`. -/
theorem c2_simple_group_invariant (b : TransactionBatch) (tokenData : TokenData)
    (tokenHash : TokenHash) (tokenOutputs : List TransactNote)
    (tsb : List TreeBalance) (totalRequired : Nat) (g : SpendingSolutionGroup)
    (hreq : totalRequired
      = tokenOutputs.foldl (fun left right => left + right.value) 0
        + unshieldTotal b tokenHash)
    (hg : createSimpleSpendingSolutionGroupsIfPossible b tokenData tokenHash
        tokenOutputs tsb totalRequired = some g) :
    g.tokenOutputs.foldl (fun left right => left + right.value) 0 + g.unshieldValue
        ≤ calculateTotalSpend g.utxos
      ∧ ∃ tb : TreeBalance, tsb.get? g.spendingTree = some tb
          ∧ ∀ u ∈ g.utxos, u ∈ tb.utxos := by
  rw [createSimpleSpendingSolutionGroupsIfPossible] at hg
  cases hbody : createSimpleBody b tokenData tokenHash tokenOutputs tsb totalRequired with
  | error e => rw [hbody] at hg; exact absurd hg (by simp)
  | ok g' =>
    rw [hbody] at hg
    injection hg with hg
    subst hg
    rw [createSimpleBody] at hbody
    cases hok : createSimpleSatisfyingUTXOGroup tsb totalRequired with
    | error e => rw [hok] at hbody; exact absurd hbody (by simp)
    | ok trip =>
      obtain ⟨utxos, tree, amt⟩ := trip
      rw [hok] at hbody
      dsimp only [] at hbody
      by_cases hamt : amt < totalRequired
      · rw [if_pos hamt] at hbody
        exact absurd hbody (by simp)
      · rw [if_neg hamt] at hbody
        obtain ⟨hspend, tb, hget, hfe⟩ :=
          createSimpleSatisfyingUTXOGroup_sound tsb totalRequired utxos tree amt hok
        by_cases harity : (!isValidFor3Outputs utxos.length
            && decide (0 < b.outputs.length)
            && decide (0 < unshieldTotal b tokenHash)) = true
        · rw [if_pos harity] at hbody
          exact absurd hbody (by simp)
        · rw [if_neg harity] at hbody
          injection hbody with hbody
          subst hbody
          refine ⟨?_, tb, hget, findExactSolutions_subset tb totalRequired utxos hfe⟩
          have h1 : totalRequired ≤ calculateTotalSpend utxos :=
            hspend ▸ Nat.le_of_not_lt hamt
          exact le_trans (le_of_eq hreq.symm) h1

/-- Claim C2 witness: a one-output batch with a single-UTXO tree produces a
simple group, whose invariant then holds. -/
theorem c2_simple_group_invariant_witness :
    ({ utxos := [⟨"a", 10⟩], spendingTree := 0, unshieldValue := 0,
       tokenOutputs := [⟨erc20Token, 5⟩],
       tokenData := erc20Token } : SpendingSolutionGroup).tokenOutputs.foldl
          (fun left right => left + right.value) 0
        + ({ utxos := [⟨"a", 10⟩], spendingTree := 0, unshieldValue := 0,
             tokenOutputs := [⟨erc20Token, 5⟩],
             tokenData := erc20Token } : SpendingSolutionGroup).unshieldValue
        ≤ calculateTotalSpend [⟨"a", 10⟩]
      ∧ ∃ tb : TreeBalance,
          ([⟨10, [⟨"a", 10⟩]⟩] : List TreeBalance).get? 0 = some tb
          ∧ ∀ u ∈ ([⟨"a", 10⟩] : List TXO), u ∈ tb.utxos :=
  c2_simple_group_invariant ⟨⟨"", ""⟩, ⟨0, 0⟩, [⟨erc20Token, 5⟩], [], 0⟩ erc20Token
    erc20Token [⟨erc20Token, 5⟩] [⟨10, [⟨"a", 10⟩]⟩] 5
    { utxos := [⟨"a", 10⟩], spendingTree := 0, unshieldValue := 0,
      tokenOutputs := [⟨erc20Token, 5⟩], tokenData := erc20Token }
    rfl rfl

/-- Claim C3: `generateValidSpendingSolutionGroups` computes the total
required as the sum of the token's output values plus the token's unshield
value; when the aggregate balance over all trees is strictly below it, the
call fails with the balance-too-low error and produces no groups. -/
theorem c3_balance_too_low_error (b : TransactionBatch)
    (balances : List (TokenHash × List TreeBalance)) (tokenData : TokenData)
    (tsb : List TreeBalance)
    (hlook : assocLookup balances (getTokenDataHash tokenData) = some tsb)
    (hlow : tsb.foldl (fun left right => left + right.balance) 0
      < (b.outputs.filter
            (fun o => decide (o.tokenHash = getTokenDataHash tokenData))).foldl
          (fun left right => left + right.value) 0
        + unshieldTotal b (getTokenDataHash tokenData)) :
    generateValidSpendingSolutionGroups b balances tokenData
      = .error (balanceTooLowError tokenData) := by
  rw [generateValidSpendingSolutionGroups]
  simp only [hlook]
  rw [if_pos hlow]

/-- Claim C3 witness: one output of value 5 with a single tree holding only
1 unit triggers the balance-too-low error. -/
theorem c3_balance_too_low_error_witness :
    generateValidSpendingSolutionGroups
        ⟨⟨"", ""⟩, ⟨0, 0⟩, [⟨erc20Token, 5⟩], [], 0⟩
        [(erc20Token, [⟨1, [⟨"a", 1⟩]⟩])] erc20Token
      = .error (balanceTooLowError erc20Token) :=
  c3_balance_too_low_error ⟨⟨"", ""⟩, ⟨0, 0⟩, [⟨erc20Token, 5⟩], [], 0⟩
    [(erc20Token, [⟨1, [⟨"a", 1⟩]⟩])] erc20Token [⟨1, [⟨"a", 1⟩]⟩] rfl (by decide)

/-- Claim C4: when the batch has at least one regular output and a nonzero
unshield for the token, a simple-path candidate whose UTXO count is not valid
for 3 outputs is rejected: no single spending solution group is produced. -/
theorem c4_invalid_3outputs_rejected (b : TransactionBatch)
    (tokenData : TokenData) (tokenHash : TokenHash)
    (tokenOutputs : List TransactNote) (tsb : List TreeBalance)
    (totalRequired : Nat) (utxos : List TXO) (tree amt : Nat)
    (hok : createSimpleSatisfyingUTXOGroup tsb totalRequired
      = .ok (utxos, tree, amt))
    (hout : 0 < b.outputs.length)
    (hunsh : 0 < unshieldTotal b tokenHash)
    (hinv : isValidFor3Outputs utxos.length = false) :
    createSimpleSpendingSolutionGroupsIfPossible b tokenData tokenHash
      tokenOutputs tsb totalRequired = none := by
  rw [createSimpleSpendingSolutionGroupsIfPossible, createSimpleBody, hok]
  dsimp only []
  by_cases hamt : amt < totalRequired
  · rw [if_pos hamt]
  · rw [if_neg hamt]
    rw [if_pos (by simp [hinv, hout, hunsh])]

/-- Claim C4 witness: a 1-UTXO candidate (invalid for 3 outputs) together
with a standard output and a nonzero unshield yields no simple group. -/
theorem c4_invalid_3outputs_rejected_witness :
    createSimpleSpendingSolutionGroupsIfPossible
        ⟨⟨"", ""⟩, ⟨0, 0⟩, [⟨erc20Token, 5⟩],
          [(erc20Token, ⟨"r", 5, erc20Token⟩)], 0⟩
        erc20Token erc20Token [⟨erc20Token, 5⟩] [⟨10, [⟨"a", 10⟩]⟩] 10 = none :=
  c4_invalid_3outputs_rejected
    ⟨⟨"", ""⟩, ⟨0, 0⟩, [⟨erc20Token, 5⟩], [(erc20Token, ⟨"r", 5, erc20Token⟩)], 0⟩
    erc20Token erc20Token [⟨erc20Token, 5⟩] [⟨10, [⟨"a", 10⟩]⟩] 10
    [⟨"a", 10⟩] 0 10 rfl (by decide) (by decide) rfl

theorem createComplex_error_msg (b : TransactionBatch) (tokenData : TokenData)
    (outs : List TransactNote) (tsb : List TreeBalance) (e : String)
    (h : createComplexSatisfyingSpendingSolutionGroups b tokenData outs tsb
      = .error e) :
    e = consolidateBalanceErrorMsg := by
  rw [createComplexSatisfyingSpendingSolutionGroups] at h
  rcases hcl : complexLoop tokenData tsb outs [] [] with ⟨groups, remaining, excluded⟩
  rw [hcl] at h
  dsimp only [] at h
  by_cases h1 : (!remaining.isEmpty) = true
  · rw [if_pos h1] at h
    injection h with h
    exact h.symm
  · rw [if_neg h1] at h
    by_cases h2 : (assocLookup b.unshieldDataMap (getTokenDataHash tokenData)).isSome
        = true
    · rw [if_pos h2] at h
      by_cases h3 : (createSpendingSolutionGroupsForUnshield tokenData tsb
          (unshieldTotal b (getTokenDataHash tokenData)) excluded).isEmpty = true
      · rw [if_pos h3] at h
        injection h with h
        exact h.symm
      · rw [if_neg h3] at h
        exact absurd h (by simp)
    · rw [if_neg h2] at h
      exact absurd h (by simp)

/-- Claim C7 (counter-evidence): the spec says every sum of amounts is
checked against the unsigned 120-bit range at each addition, but the sums in
`generateValidSpendingSolutionGroups` are plain arbitrary-precision
additions: two outputs of value 2^119 produce an output total of 2^120,
beyond the 120-bit range, and solution generation succeeds without any
overflow error. -/
theorem c7_no_overflow_check_at_2pow120 :
    (([⟨erc20Token, 2 ^ 119⟩, ⟨erc20Token, 2 ^ 119⟩] : List TransactNote).foldl
        (fun left right => left + right.value) 0 = 2 ^ 120)
    ∧ generateValidSpendingSolutionGroups
        ⟨⟨"", ""⟩, ⟨0, 0⟩, [⟨erc20Token, 2 ^ 119⟩, ⟨erc20Token, 2 ^ 119⟩], [], 0⟩
        [(erc20Token, [⟨2 ^ 121, [⟨"z", 2 ^ 121⟩]⟩])] erc20Token
      = .ok [{ utxos := [⟨"z", 2 ^ 121⟩], spendingTree := 0, unshieldValue := 0,
               tokenOutputs := [⟨erc20Token, 2 ^ 119⟩, ⟨erc20Token, 2 ^ 119⟩],
               tokenData := erc20Token }] :=
  ⟨rfl, rfl⟩

/-- Claim C7 as amended: no overflow check exists; the only errors batch
solution generation can raise are the missing-balance, balance-too-low and
consolidate-balance errors — none of them an overflow check. -/
theorem c7_amended_no_overflow_errors (b : TransactionBatch)
    (balances : List (TokenHash × List TreeBalance)) (tokenData : TokenData)
    (e : String)
    (h : generateValidSpendingSolutionGroups b balances tokenData = .error e) :
    e = balanceNotFoundError tokenData ∨ e = balanceTooLowError tokenData
      ∨ e = consolidateBalanceErrorMsg := by
  rw [generateValidSpendingSolutionGroups] at h
  cases hlook : assocLookup balances (getTokenDataHash tokenData) with
  | none =>
    rw [hlook] at h
    dsimp only [] at h
    injection h with h
    exact Or.inl h.symm
  | some tsb =>
    rw [hlook] at h
    dsimp only [] at h
    by_cases hlow : List.foldl (fun left right => left + right.balance) 0 tsb
        < List.foldl (fun left right => left + right.value) 0
            (List.filter (fun o => decide (o.tokenHash = getTokenDataHash tokenData))
              b.outputs)
          + unshieldTotal b (getTokenDataHash tokenData)
    · rw [if_pos hlow] at h
      injection h with h
      exact Or.inr (Or.inl h.symm)
    · rw [if_neg hlow] at h
      cases hs : createSimpleSpendingSolutionGroupsIfPossible b tokenData
          (getTokenDataHash tokenData)
          (List.filter (fun o => decide (o.tokenHash = getTokenDataHash tokenData))
            b.outputs)
          tsb
          (List.foldl (fun left right => left + right.value) 0
              (List.filter (fun o => decide (o.tokenHash = getTokenDataHash tokenData))
                b.outputs)
            + unshieldTotal b (getTokenDataHash tokenData)) with
      | some g =>
        rw [hs] at h
        exact absurd h (by simp)
      | none =>
        rw [hs] at h
        exact Or.inr (Or.inr (createComplex_error_msg _ _ _ _ _ h))

/-- Claim C7 amended-theorem witness: an empty balance map yields the
missing-balance error, one of the three possible errors. -/
theorem c7_amended_no_overflow_errors_witness :
    balanceNotFoundError erc20Token = balanceNotFoundError erc20Token
      ∨ balanceNotFoundError erc20Token = balanceTooLowError erc20Token
      ∨ balanceNotFoundError erc20Token = consolidateBalanceErrorMsg :=
  c7_amended_no_overflow_errors ⟨⟨"", ""⟩, ⟨0, 0⟩, [], [], 0⟩ [] erc20Token
    (balanceNotFoundError erc20Token) rfl

/-- Claim C5: when the simple path yields no group but the aggregate balance
suffices, `generateValidSpendingSolutionGroups` falls back to the complex
path; the complex path raises the consolidate-balance error when its
per-output loop leaves outputs unsatisfied, and also when a recorded unshield
yields no groups. -/
theorem c5_complex_fallback_and_consolidate (b : TransactionBatch)
    (balances : List (TokenHash × List TreeBalance)) (tokenData : TokenData)
    (tsb : List TreeBalance) (outs : List TransactNote) :
    (assocLookup balances (getTokenDataHash tokenData) = some tsb →
      ¬ (tsb.foldl (fun left right => left + right.balance) 0
        < (b.outputs.filter
              (fun o => decide (o.tokenHash = getTokenDataHash tokenData))).foldl
            (fun left right => left + right.value) 0
          + unshieldTotal b (getTokenDataHash tokenData)) →
      createSimpleSpendingSolutionGroupsIfPossible b tokenData
          (getTokenDataHash tokenData)
          (b.outputs.filter
            (fun o => decide (o.tokenHash = getTokenDataHash tokenData)))
          tsb
          ((b.outputs.filter
              (fun o => decide (o.tokenHash = getTokenDataHash tokenData))).foldl
            (fun left right => left + right.value) 0
          + unshieldTotal b (getTokenDataHash tokenData)) = none →
      generateValidSpendingSolutionGroups b balances tokenData
        = createComplexSatisfyingSpendingSolutionGroups b tokenData
            (b.outputs.filter
              (fun o => decide (o.tokenHash = getTokenDataHash tokenData))) tsb)
    ∧ ((complexLoop tokenData tsb outs [] []).2.1 ≠ [] →
        createComplexSatisfyingSpendingSolutionGroups b tokenData outs tsb
          = .error consolidateBalanceErrorMsg)
    ∧ ((complexLoop tokenData tsb outs [] []).2.1 = [] →
        (assocLookup b.unshieldDataMap (getTokenDataHash tokenData)).isSome = true →
        createSpendingSolutionGroupsForUnshield tokenData tsb
            (unshieldTotal b (getTokenDataHash tokenData))
            (complexLoop tokenData tsb outs [] []).2.2 = [] →
        createComplexSatisfyingSpendingSolutionGroups b tokenData outs tsb
          = .error consolidateBalanceErrorMsg) := by
  refine ⟨?_, ?_, ?_⟩
  · intro hlook hbal hsimple
    rw [generateValidSpendingSolutionGroups]
    simp only [hlook]
    rw [if_neg hbal]
    rw [hsimple]
  · intro h2
    rw [createComplexSatisfyingSpendingSolutionGroups]
    rcases hcl : complexLoop tokenData tsb outs [] [] with ⟨groups, remaining, excluded⟩
    rw [hcl] at h2
    dsimp only [] at h2 ⊢
    have hr : (!remaining.isEmpty) = true := by
      cases remaining with
      | nil => exact absurd rfl h2
      | cons x xs => rfl
    rw [if_pos hr]
  · intro h3a h3b h3c
    rw [createComplexSatisfyingSpendingSolutionGroups]
    rcases hcl : complexLoop tokenData tsb outs [] [] with ⟨groups, remaining, excluded⟩
    rw [hcl] at h3a h3c
    dsimp only [] at h3a h3c ⊢
    subst h3a
    rw [if_neg (by simp)]
    rw [if_pos h3b]
    rw [h3c]
    simp

/-- Claim C5 witness: with seven unit UTXOs and one output of 5 the simple
path fails (the fallback fires); with no trees at all the per-output loop
leaves the output unsatisfied and the unshield-only case finds no groups, so
both consolidate-balance branches fire. -/
theorem c5_complex_fallback_and_consolidate_witness :
    (generateValidSpendingSolutionGroups
        ⟨⟨"", ""⟩, ⟨0, 0⟩, [⟨erc20Token, 5⟩], [], 0⟩
        [(erc20Token, [⟨7, sevenOnes⟩])] erc20Token
      = createComplexSatisfyingSpendingSolutionGroups
          ⟨⟨"", ""⟩, ⟨0, 0⟩, [⟨erc20Token, 5⟩], [], 0⟩ erc20Token
          [⟨erc20Token, 5⟩] [⟨7, sevenOnes⟩])
    ∧ (createComplexSatisfyingSpendingSolutionGroups
        ⟨⟨"", ""⟩, ⟨0, 0⟩, [⟨erc20Token, 5⟩], [], 0⟩ erc20Token
        [⟨erc20Token, 5⟩] []
      = .error consolidateBalanceErrorMsg)
    ∧ (createComplexSatisfyingSpendingSolutionGroups
        ⟨⟨"", ""⟩, ⟨0, 0⟩, [], [(erc20Token, ⟨"r", 5, erc20Token⟩)], 0⟩ erc20Token
        [] []
      = .error consolidateBalanceErrorMsg) := by
  refine ⟨?_, ?_, ?_⟩
  · exact (c5_complex_fallback_and_consolidate
      ⟨⟨"", ""⟩, ⟨0, 0⟩, [⟨erc20Token, 5⟩], [], 0⟩
      [(erc20Token, [⟨7, sevenOnes⟩])] erc20Token [⟨7, sevenOnes⟩]
      [⟨erc20Token, 5⟩]).1 rfl (by decide) (by decide)
  · exact (c5_complex_fallback_and_consolidate
      ⟨⟨"", ""⟩, ⟨0, 0⟩, [⟨erc20Token, 5⟩], [], 0⟩
      [] erc20Token [] [⟨erc20Token, 5⟩]).2.1 (by decide)
  · exact (c5_complex_fallback_and_consolidate
      ⟨⟨"", ""⟩, ⟨0, 0⟩, [], [(erc20Token, ⟨"r", 5, erc20Token⟩)], 0⟩
      [] erc20Token [] []).2.2 (by decide) (by decide) (by decide)

/-- Claim C10: `createSimpleSpendingSolutionGroupsIfPossible` never
propagates an exception — every error of its body becomes `none` — and
`generateValidSpendingSolutionGroups` consumes its result only as an option,
falling through to the complex path on `none`, so a simple-path failure alone
never aborts solution generation. -/
theorem c10_simple_failure_never_aborts (b : TransactionBatch)
    (balances : List (TokenHash × List TreeBalance)) (tokenData : TokenData) :
    (∀ (tokenHash : TokenHash) (tokenOutputs : List TransactNote)
        (tsb : List TreeBalance) (totalRequired : Nat) (e : String),
      createSimpleBody b tokenData tokenHash tokenOutputs tsb totalRequired
          = .error e →
      createSimpleSpendingSolutionGroupsIfPossible b tokenData tokenHash
        tokenOutputs tsb totalRequired = none)
    ∧ (∀ tsb : List TreeBalance,
        assocLookup balances (getTokenDataHash tokenData) = some tsb →
        ¬ (tsb.foldl (fun left right => left + right.balance) 0
          < (b.outputs.filter
                (fun o => decide (o.tokenHash = getTokenDataHash tokenData))).foldl
              (fun left right => left + right.value) 0
            + unshieldTotal b (getTokenDataHash tokenData)) →
        generateValidSpendingSolutionGroups b balances tokenData
          = match createSimpleSpendingSolutionGroupsIfPossible b tokenData
                (getTokenDataHash tokenData)
                (b.outputs.filter
                  (fun o => decide (o.tokenHash = getTokenDataHash tokenData)))
                tsb
                ((b.outputs.filter
                    (fun o => decide (o.tokenHash = getTokenDataHash tokenData))).foldl
                    (fun left right => left + right.value) 0
                  + unshieldTotal b (getTokenDataHash tokenData)) with
            | some g => .ok [g]
            | none =>
              createComplexSatisfyingSpendingSolutionGroups b tokenData
                (b.outputs.filter
                  (fun o => decide (o.tokenHash = getTokenDataHash tokenData))) tsb) := by
  constructor
  · intro tokenHash tokenOutputs tsb totalRequired e h
    rw [createSimpleSpendingSolutionGroupsIfPossible, h]
  · intro tsb hlook hbal
    rw [generateValidSpendingSolutionGroups]
    simp only [hlook]
    rw [if_neg hbal]

/-- Claim C10 witness: with no trees the simple body throws and the wrapper
returns `none`; in the seven-unit-UTXO scenario the simple path fails and
solution generation still evaluates to the option-directed branch. -/
theorem c10_simple_failure_never_aborts_witness :
    createSimpleSpendingSolutionGroupsIfPossible
        ⟨⟨"", ""⟩, ⟨0, 0⟩, [⟨erc20Token, 5⟩], [], 0⟩ erc20Token erc20Token
        [⟨erc20Token, 5⟩] [] 5 = none
    ∧ generateValidSpendingSolutionGroups
        ⟨⟨"", ""⟩, ⟨0, 0⟩, [⟨erc20Token, 5⟩], [], 0⟩
        [(erc20Token, [⟨7, sevenOnes⟩])] erc20Token
      = match createSimpleSpendingSolutionGroupsIfPossible
            ⟨⟨"", ""⟩, ⟨0, 0⟩, [⟨erc20Token, 5⟩], [], 0⟩ erc20Token
            (getTokenDataHash erc20Token)
            ((⟨⟨"", ""⟩, ⟨0, 0⟩, [⟨erc20Token, 5⟩], [], 0⟩ :
                TransactionBatch).outputs.filter
              (fun o => decide (o.tokenHash = getTokenDataHash erc20Token)))
            [⟨7, sevenOnes⟩]
            (((⟨⟨"", ""⟩, ⟨0, 0⟩, [⟨erc20Token, 5⟩], [], 0⟩ :
                TransactionBatch).outputs.filter
                (fun o => decide (o.tokenHash = getTokenDataHash erc20Token))).foldl
                (fun left right => left + right.value) 0
              + unshieldTotal ⟨⟨"", ""⟩, ⟨0, 0⟩, [⟨erc20Token, 5⟩], [], 0⟩
                  (getTokenDataHash erc20Token)) with
        | some g => .ok [g]
        | none =>
          createComplexSatisfyingSpendingSolutionGroups
            ⟨⟨"", ""⟩, ⟨0, 0⟩, [⟨erc20Token, 5⟩], [], 0⟩ erc20Token
            ((⟨⟨"", ""⟩, ⟨0, 0⟩, [⟨erc20Token, 5⟩], [], 0⟩ :
                TransactionBatch).outputs.filter
              (fun o => decide (o.tokenHash = getTokenDataHash erc20Token)))
            [⟨7, sevenOnes⟩] := by
  constructor
  · exact (c10_simple_failure_never_aborts
      ⟨⟨"", ""⟩, ⟨0, 0⟩, [⟨erc20Token, 5⟩], [], 0⟩ [] erc20Token).1 erc20Token
      [⟨erc20Token, 5⟩] [] 5
      "No spending solutions found. Must use complex UTXO aggregator." rfl
  · exact (c10_simple_failure_never_aborts
      ⟨⟨"", ""⟩, ⟨0, 0⟩, [⟨erc20Token, 5⟩], [], 0⟩
      [(erc20Token, [⟨7, sevenOnes⟩])] erc20Token).2 [⟨7, sevenOnes⟩] rfl (by decide)
